import Mathlib

/-!
# imagekit: resize and compress

A shallow embedding of `include/imagekit/imagekit.hpp` and of the helper
`makeDummyImage` of `tests/test_basic.cpp`, followed by theorems about
`Image::valid`, `Processor::resize` and `Processor::compress`.

Modelling conventions:

* `std::uint8_t` is `Fin 256`; `std::vector<std::uint8_t>` is a list of them.
* `std::size_t` fields are `Nat`.  The header only compares them with `0` and
  copies them, so no arithmetic of the header can wrap.
* `int quality` is `Int`; the header only compares it with `1` and `100`.
* A thrown `std::invalid_argument(msg)` is `Except.error (invalid_argument msg)`;
  a normal return is `Except.ok`.
-/

namespace imagekit

/-- One `std::uint8_t`. -/
abbrev Byte := Fin 256

/-- Supported output image formats (`enum class Format`). -/
inductive Format where
  | JPEG
  | PNG
  | WEBP
  deriving DecidableEq, Repr

/-- The exceptions the header throws: `std::invalid_argument` carrying its `what()` text. -/
inductive Exception where
  | invalid_argument (what : String)
  deriving DecidableEq, Repr

/-- Basic image container (`struct Image`), with the member initialisers of the header. -/
structure Image where
  data : List Byte := []
  width : Nat := 0
  height : Nat := 0
  channels : Nat := 0
  deriving DecidableEq, Repr

/-- `Image::valid`: `!data.empty() && width > 0 && height > 0 && channels > 0`. -/
def Image.valid (self : Image) : Bool :=
  !self.data.isEmpty && decide (self.width > 0) && decide (self.height > 0)
    && decide (self.channels > 0)

/-- Resize options (`struct ResizeOptions`), with the member initialisers of the header. -/
structure ResizeOptions where
  target_width : Nat := 0
  target_height : Nat := 0
  preserve_aspect_ratio : Bool := true
  deriving DecidableEq, Repr

/-- Compression options (`struct CompressOptions`), with the member initialisers of the header. -/
structure CompressOptions where
  format : Format := Format.JPEG
  quality : Int := 85
  deriving DecidableEq, Repr

/-- Text thrown by `resize` on an input that is not valid. -/
def resize_invalid_input : String := "imagekit::resize: invalid input image"

/-- Text thrown by `resize` on a zero target dimension. -/
def resize_invalid_target : String := "imagekit::resize: invalid target size"

/-- Text thrown by `compress` on an input that is not valid. -/
def compress_invalid_input : String := "imagekit::compress: invalid input image"

/-- Text thrown by `compress` on a quality outside 1-100. -/
def compress_invalid_quality : String := "imagekit::compress: quality must be 1-100"

/-- `Processor::resize`: the two guards in source order, then the skeleton body
`Image output = input; output.width = ...; output.height = ...; return output;`. -/
def Processor.resize (input : Image) (options : ResizeOptions) : Except Exception Image :=
  if !input.valid then
    Except.error (Exception.invalid_argument resize_invalid_input)
  else if options.target_width == 0 || options.target_height == 0 then
    Except.error (Exception.invalid_argument resize_invalid_target)
  else
    let output := input
    let output := { output with width := options.target_width }
    let output := { output with height := options.target_height }
    Except.ok output

/-- `Processor::compress`: the two guards in source order, then `return input.data;`. -/
def Processor.compress (input : Image) (options : CompressOptions) :
    Except Exception (List Byte) :=
  if !input.valid then
    Except.error (Exception.invalid_argument compress_invalid_input)
  else if decide (options.quality < 1) || decide (options.quality > 100) then
    Except.error (Exception.invalid_argument compress_invalid_quality)
  else
    Except.ok input.data

/-- `makeDummyImage` of the test file: `width * height * channels` bytes (the
product taken in `std::size_t`, 64 bits wide), byte `i` being `i % 251`. -/
def makeDummyImage (width height channels : Nat) : Image :=
  let total := (width * height * channels) % 2 ^ 64
  { data := (List.range total).map (fun i => Fin.ofNat (i % 251))
    width := width
    height := height
    channels := channels }

/-- The image built by `main` of the three example programs: the fields are
assigned, then `img.data.resize(img.width * img.height * img.channels, v)` on the
empty vector gives that many bytes (product in `std::size_t`), all equal to `v`. -/
def filledImage (width height channels : Nat) (v : Byte) : Image :=
  { data := List.replicate ((width * height * channels) % 2 ^ 64) v
    width := width
    height := height
    channels := channels }

/-! ## Helper lemmas -/

theorem valid_iff (img : Image) :
    img.valid = true ↔ img.data ≠ [] ∧ 0 < img.width ∧ 0 < img.height ∧ 0 < img.channels := by
  cases img with
  | mk d w h c =>
    cases d <;> simp [Image.valid, and_assoc]

theorem resize_of_not_valid (input : Image) (options : ResizeOptions)
    (h : input.valid = false) :
    Processor.resize input options
      = Except.error (Exception.invalid_argument resize_invalid_input) := by
  simp [Processor.resize, h]

theorem resize_of_valid (input : Image) (options : ResizeOptions)
    (h : input.valid = true) (hw : 0 < options.target_width) (hh : 0 < options.target_height) :
    Processor.resize input options
      = Except.ok { data := input.data, width := options.target_width,
                    height := options.target_height, channels := input.channels } := by
  have hw0 : options.target_width ≠ 0 := Nat.pos_iff_ne_zero.mp hw
  have hh0 : options.target_height ≠ 0 := Nat.pos_iff_ne_zero.mp hh
  simp [Processor.resize, h, hw0, hh0]

theorem compress_of_valid (input : Image) (options : CompressOptions)
    (h : input.valid = true) (h1 : 1 ≤ options.quality) (h2 : options.quality ≤ 100) :
    Processor.compress input options = Except.ok input.data := by
  have a : ¬ options.quality < 1 := not_lt.mpr h1
  have b : ¬ 100 < options.quality := not_lt.mpr h2
  simp [Processor.compress, h, a, b]

theorem makeDummyImage_length (w h c : Nat) :
    (makeDummyImage w h c).data.length = (w * h * c) % 2 ^ 64 := by
  simp [makeDummyImage]

theorem makeDummyImage_valid (w h c : Nat) (hw : 0 < w) (hh : 0 < h) (hc : 0 < c)
    (hn : 0 < (w * h * c) % 2 ^ 64) : (makeDummyImage w h c).valid = true := by
  refine (valid_iff _).mpr ⟨?_, hw, hh, hc⟩
  intro e
  have l := makeDummyImage_length w h c
  rw [e] at l
  exact absurd l.symm (Nat.pos_iff_ne_zero.mp hn)

theorem filledImage_length (w h c : Nat) (v : Byte) :
    (filledImage w h c v).data.length = (w * h * c) % 2 ^ 64 :=
  List.length_replicate _ _

theorem filledImage_valid (w h c : Nat) (v : Byte) (hw : 0 < w) (hh : 0 < h) (hc : 0 < c)
    (hn : 0 < (w * h * c) % 2 ^ 64) : (filledImage w h c v).valid = true := by
  refine (valid_iff _).mpr ⟨?_, hw, hh, hc⟩
  intro e
  have l := filledImage_length w h c v
  rw [e] at l
  exact absurd l.symm (Nat.pos_iff_ne_zero.mp hn)

theorem filledImage_bytes (w h c : Nat) (v : Byte) :
    ∀ b ∈ (filledImage w h c v).data, b = v := by
  intro b hb
  exact (List.mem_replicate.mp hb).2

theorem resize_messages_ne : resize_invalid_target ≠ resize_invalid_input := by decide

theorem compress_messages_ne : compress_invalid_input ≠ compress_invalid_quality := by decide

theorem error_ne_of_what_ne {α : Type} {a b : String} (h : a ≠ b) :
    (Except.error (Exception.invalid_argument a) : Except Exception α)
      ≠ Except.error (Exception.invalid_argument b) := by
  intro e
  injection e with e1
  injection e1 with e2
  exact h e2

/-! ## Input and option checks -/

/-- C1: on every image for which `valid()` is false, `resize` throws the
invalid-input error and returns no image, whatever the options are (zero target
dimensions included). -/
theorem resize_invalid_input_rejected (input : Image) (options : ResizeOptions)
    (h : input.valid = false) :
    Processor.resize input options
        = Except.error (Exception.invalid_argument "imagekit::resize: invalid input image")
      ∧ ∀ out : Image, Processor.resize input options ≠ Except.ok out := by
  have e := resize_of_not_valid input options h
  refine ⟨e, ?_⟩
  intro out hout
  rw [e] at hout
  cases hout

/-- Witness of C1: the default-constructed image of the test with a 10x10 target. -/
theorem resize_invalid_input_rejected_witness :
    (({} : Image).valid = false
      ∧ Processor.resize {} { target_width := 10, target_height := 10 }
          = Except.error (Exception.invalid_argument "imagekit::resize: invalid input image")
      ∧ ∀ out : Image,
          Processor.resize {} { target_width := 10, target_height := 10 } ≠ Except.ok out) :=
  ⟨by decide,
   resize_invalid_input_rejected {} { target_width := 10, target_height := 10 } (by decide)⟩

/-- C2: on every valid image, a zero `target_width` or `target_height` makes
`resize` throw the invalid-target error, which differs from the invalid-input
error, and no image is returned. -/
theorem resize_zero_target_rejected (input : Image) (options : ResizeOptions)
    (h : input.valid = true)
    (hz : options.target_width = 0 ∨ options.target_height = 0) :
    Processor.resize input options
        = Except.error (Exception.invalid_argument "imagekit::resize: invalid target size")
      ∧ Processor.resize input options
        ≠ Except.error (Exception.invalid_argument "imagekit::resize: invalid input image")
      ∧ ∀ out : Image, Processor.resize input options ≠ Except.ok out := by
  have e : Processor.resize input options
      = Except.error (Exception.invalid_argument resize_invalid_target) := by
    rcases hz with hz | hz <;> simp [Processor.resize, h, hz]
  refine ⟨e, ?_, ?_⟩
  · rw [e]
    exact error_ne_of_what_ne resize_messages_ne
  · intro out hout
    rw [e] at hout
    cases hout

/-- Witness of C2: the 4x4x3 dummy image of the test with a 0x10 target. -/
theorem resize_zero_target_rejected_witness :
    ((makeDummyImage 4 4 3).valid = true
      ∧ Processor.resize (makeDummyImage 4 4 3) { target_width := 0, target_height := 10 }
          = Except.error (Exception.invalid_argument "imagekit::resize: invalid target size")
      ∧ Processor.resize (makeDummyImage 4 4 3) { target_width := 0, target_height := 10 }
          ≠ Except.error (Exception.invalid_argument "imagekit::resize: invalid input image")
      ∧ ∀ out : Image,
          Processor.resize (makeDummyImage 4 4 3) { target_width := 0, target_height := 10 }
            ≠ Except.ok out) :=
  ⟨by decide,
   resize_zero_target_rejected (makeDummyImage 4 4 3) { target_width := 0, target_height := 10 }
     (by decide) (Or.inl rfl)⟩

/-- C3: on every valid image and for every format, a quality below 1 or above
100 makes `compress` throw the invalid-quality error, and no bytes are returned. -/
theorem compress_bad_quality_rejected (input : Image) (format : Format) (q : Int)
    (h : input.valid = true) (hq : q < 1 ∨ 100 < q) :
    Processor.compress input { format := format, quality := q }
        = Except.error (Exception.invalid_argument "imagekit::compress: quality must be 1-100")
      ∧ ∀ bytes : List Byte,
          Processor.compress input { format := format, quality := q } ≠ Except.ok bytes := by
  have e : Processor.compress input { format := format, quality := q }
      = Except.error (Exception.invalid_argument compress_invalid_quality) := by
    rcases hq with hq | hq <;> simp [Processor.compress, h, hq]
  refine ⟨e, ?_⟩
  intro bytes hb
  rw [e] at hb
  cases hb

/-- Witness of C3: the 2x2x3 dummy image of the test, JPEG, quality 101. -/
theorem compress_bad_quality_rejected_witness :
    ((makeDummyImage 2 2 3).valid = true ∧ ((101 : Int) < 1 ∨ (100 : Int) < 101)
      ∧ Processor.compress (makeDummyImage 2 2 3) { format := Format.JPEG, quality := 101 }
          = Except.error (Exception.invalid_argument "imagekit::compress: quality must be 1-100")
      ∧ ∀ bytes : List Byte,
          Processor.compress (makeDummyImage 2 2 3) { format := Format.JPEG, quality := 101 }
            ≠ Except.ok bytes) :=
  ⟨by decide, by decide,
   compress_bad_quality_rejected (makeDummyImage 2 2 3) Format.JPEG 101 (by decide)
     (Or.inr (by decide))⟩

/-- C4: on every image for which `valid()` is false, `compress` throws the
invalid-input error, never the invalid-quality error, whatever the format and
the quality (in range or not) are. -/
theorem compress_invalid_input_first (input : Image) (options : CompressOptions)
    (h : input.valid = false) :
    Processor.compress input options
        = Except.error (Exception.invalid_argument "imagekit::compress: invalid input image")
      ∧ Processor.compress input options
        ≠ Except.error (Exception.invalid_argument "imagekit::compress: quality must be 1-100")
      ∧ ∀ bytes : List Byte, Processor.compress input options ≠ Except.ok bytes := by
  have e : Processor.compress input options
      = Except.error (Exception.invalid_argument compress_invalid_input) := by
    simp [Processor.compress, h]
  refine ⟨e, ?_, ?_⟩
  · rw [e]
    exact error_ne_of_what_ne compress_messages_ne
  · intro bytes hb
    rw [e] at hb
    cases hb

/-- Witness of C4: the default-constructed image with quality 101. -/
theorem compress_invalid_input_first_witness :
    (({} : Image).valid = false
      ∧ Processor.compress {} { format := Format.PNG, quality := 101 }
          = Except.error (Exception.invalid_argument "imagekit::compress: invalid input image")
      ∧ Processor.compress {} { format := Format.PNG, quality := 101 }
          ≠ Except.error (Exception.invalid_argument "imagekit::compress: quality must be 1-100")
      ∧ ∀ bytes : List Byte,
          Processor.compress {} { format := Format.PNG, quality := 101 } ≠ Except.ok bytes) :=
  ⟨by decide,
   compress_invalid_input_first {} { format := Format.PNG, quality := 101 } (by decide)⟩

/-! ## What `resize` returns -/

/-- Counterexample to C5: the 8x6x3 dummy image of the test carries 144 bytes;
resized to 4x3 the result still carries 144 bytes, while its width * height *
channels is 36. -/
theorem resize_data_length_counterexample :
    ((makeDummyImage 8 6 3).valid = true
      ∧ (makeDummyImage 8 6 3).data.length
          = (makeDummyImage 8 6 3).width * (makeDummyImage 8 6 3).height
              * (makeDummyImage 8 6 3).channels
      ∧ ∃ out : Image,
          Processor.resize (makeDummyImage 8 6 3) { target_width := 4, target_height := 3 }
            = Except.ok out
          ∧ out.data.length = 144
          ∧ out.width * out.height * out.channels = 36
          ∧ out.data.length ≠ out.width * out.height * out.channels) := by
  refine ⟨by decide, by simp [makeDummyImage], _, rfl, ?_, ?_, ?_⟩
  · simp [makeDummyImage]
  · decide
  · simp [makeDummyImage]

/-- C5 (amended): for every valid image `B` whose data length is
`B.width * B.height * B.channels` and all positive target dimensions, `resize`
returns an image with `B`'s channel count whose data length is still
`B.width * B.height * B.channels`; that length is the product of the output's
own dimensions exactly when `target_width * target_height = B.width * B.height`. -/
theorem resize_keeps_channels_and_data_length (B : Image) (S : ResizeOptions)
    (h : B.valid = true) (hlen : B.data.length = B.width * B.height * B.channels)
    (hw : 0 < S.target_width) (hh : 0 < S.target_height) :
    ∃ out : Image, Processor.resize B S = Except.ok out
      ∧ out.channels = B.channels
      ∧ out.data.length = B.width * B.height * B.channels
      ∧ (out.data.length = out.width * out.height * out.channels
          ↔ S.target_width * S.target_height = B.width * B.height) := by
  have hc : 0 < B.channels := ((valid_iff B).mp h).2.2.2
  refine ⟨_, resize_of_valid B S h hw hh, rfl, hlen, ?_⟩
  show B.data.length = S.target_width * S.target_height * B.channels ↔ _
  rw [hlen]
  constructor
  · intro e
    exact (Nat.eq_of_mul_eq_mul_right hc e).symm
  · intro e
    rw [e]

/-- Witness of the amended C5: the 8x6x3 dummy image resized to 4x3. -/
theorem resize_keeps_channels_and_data_length_witness :
    ∃ out : Image,
      Processor.resize (makeDummyImage 8 6 3) { target_width := 4, target_height := 3 }
        = Except.ok out
      ∧ out.channels = (makeDummyImage 8 6 3).channels
      ∧ out.data.length
          = (makeDummyImage 8 6 3).width * (makeDummyImage 8 6 3).height
              * (makeDummyImage 8 6 3).channels
      ∧ (out.data.length = out.width * out.height * out.channels
          ↔ 4 * 3 = (makeDummyImage 8 6 3).width * (makeDummyImage 8 6 3).height) :=
  resize_keeps_channels_and_data_length (makeDummyImage 8 6 3)
    { target_width := 4, target_height := 3 } (by decide) (by simp [makeDummyImage])
    (by decide) (by decide)

/-- C6: for every valid image and all positive target dimensions, whatever
`preserve_aspect_ratio` is, `resize` returns a valid image whose width and
height are the targets, whose channel count is the input's and whose data has
the input's length. -/
theorem resize_sets_target_dimensions (input : Image) (tw th : Nat) (keep : Bool)
    (h : input.valid = true) (hw : 0 < tw) (hh : 0 < th) :
    ∃ out : Image,
      Processor.resize input
          { target_width := tw, target_height := th, preserve_aspect_ratio := keep }
        = Except.ok out
      ∧ out.valid = true ∧ out.width = tw ∧ out.height = th
      ∧ out.channels = input.channels ∧ out.data.length = input.data.length := by
  obtain ⟨hd, _, _, hc⟩ := (valid_iff input).mp h
  refine ⟨_, resize_of_valid input _ h hw hh, ?_, rfl, rfl, rfl, rfl⟩
  exact (valid_iff _).mpr ⟨hd, hw, hh, hc⟩

/-- Witness of C6: the test's 8x6x3 image resized to 4x3 with the aspect flag set. -/
theorem resize_sets_target_dimensions_witness :
    ∃ out : Image,
      Processor.resize (makeDummyImage 8 6 3)
          { target_width := 4, target_height := 3, preserve_aspect_ratio := true }
        = Except.ok out
      ∧ out.valid = true ∧ out.width = 4 ∧ out.height = 3
      ∧ out.channels = (makeDummyImage 8 6 3).channels
      ∧ out.data.length = (makeDummyImage 8 6 3).data.length :=
  resize_sets_target_dimensions (makeDummyImage 8 6 3) 4 3 true (by decide) (by decide)
    (by decide)

/-- C8: on a valid image all of whose bytes equal `v`, with positive target
dimensions, `resize` returns an image whose data is non-empty, is the input's
data byte for byte (so as long as the input's), and all of whose bytes equal
`v`; its width and height are the targets and its channel count the input's. -/
theorem resize_constant_image (input : Image) (options : ResizeOptions) (v : Byte)
    (h : input.valid = true) (hv : ∀ b ∈ input.data, b = v)
    (hw : 0 < options.target_width) (hh : 0 < options.target_height) :
    ∃ out : Image, Processor.resize input options = Except.ok out
      ∧ out.data ≠ []
      ∧ out.data = input.data
      ∧ out.data.length = input.data.length
      ∧ out.data = List.replicate input.data.length v
      ∧ out.width = options.target_width
      ∧ out.height = options.target_height
      ∧ out.channels = input.channels
      ∧ ∀ b ∈ out.data, b = v :=
  ⟨_, resize_of_valid input options h hw hh, ((valid_iff input).mp h).1, rfl, rfl,
    List.eq_replicate_of_mem hv, rfl, rfl, rfl, hv⟩

/-- Witness of C8: the 512x512x3 image filled with 128, resized to 256x256: the
result is 256 wide, 256 high, has 3 channels and carries the input's 786432
bytes, every one equal to 128. -/
theorem resize_constant_image_witness :
    ∃ out : Image,
      Processor.resize (filledImage 512 512 3 128) { target_width := 256, target_height := 256 }
        = Except.ok out
      ∧ out.width = 256 ∧ out.height = 256 ∧ out.channels = 3
      ∧ out.data ≠ []
      ∧ out.data = (filledImage 512 512 3 128).data
      ∧ out.data.length = 786432
      ∧ ∀ b ∈ out.data, b = 128 := by
  obtain ⟨out, hr, hne, hd, hl, _, ew, eh, ec, hb⟩ :=
    resize_constant_image (filledImage 512 512 3 128)
      { target_width := 256, target_height := 256 } 128
      (filledImage_valid 512 512 3 128 (by decide) (by decide) (by decide) (by decide))
      (filledImage_bytes 512 512 3 128)
      (by decide) (by decide)
  exact ⟨out, hr, ew, eh, ec, hne, hd, hl.trans (filledImage_length 512 512 3 128), hb⟩

/-! ## What `compress` returns -/

/-- C7: for every valid image, every format and every quality in 1..100,
`compress` returns a non-empty byte sequence of the input data's length. -/
theorem compress_returns_buffer (input : Image) (format : Format) (q : Int)
    (h : input.valid = true) (h1 : 1 ≤ q) (h2 : q ≤ 100) :
    ∃ bytes : List Byte,
      Processor.compress input { format := format, quality := q } = Except.ok bytes
      ∧ bytes ≠ [] ∧ bytes.length = input.data.length :=
  ⟨_, compress_of_valid input _ h h1 h2, ((valid_iff input).mp h).1, rfl⟩

/-- Witness of C7: the test's 10x10x4 image, JPEG, quality 85. -/
theorem compress_returns_buffer_witness :
    ∃ bytes : List Byte,
      Processor.compress (makeDummyImage 10 10 4) { format := Format.JPEG, quality := 85 }
        = Except.ok bytes
      ∧ bytes ≠ [] ∧ bytes.length = (makeDummyImage 10 10 4).data.length :=
  compress_returns_buffer (makeDummyImage 10 10 4) Format.JPEG 85
    (makeDummyImage_valid 10 10 4 (by decide) (by decide) (by decide) (by decide))
    (by decide) (by decide)

/-- Counterexample to C9: the 800x600x3 dummy image (bytes `i % 251`) is valid
and carries 1,440,000 bytes; JPEG at quality 80 returns 1,440,000 bytes, which is
not strictly smaller. -/
theorem compress_jpeg_size_counterexample :
    ((makeDummyImage 800 600 3).valid = true
      ∧ (makeDummyImage 800 600 3).width = 800
      ∧ (makeDummyImage 800 600 3).height = 600
      ∧ (makeDummyImage 800 600 3).channels = 3
      ∧ (makeDummyImage 800 600 3).data.length = 1440000
      ∧ ∃ bytes : List Byte,
          Processor.compress (makeDummyImage 800 600 3) { format := Format.JPEG, quality := 80 }
            = Except.ok bytes
          ∧ bytes.length = 1440000 ∧ ¬ bytes.length < 1440000) := by
  have hvalid : (makeDummyImage 800 600 3).valid = true :=
    makeDummyImage_valid 800 600 3 (by decide) (by decide) (by decide) (by decide)
  have hlen : (makeDummyImage 800 600 3).data.length = 1440000 :=
    makeDummyImage_length 800 600 3
  refine ⟨hvalid, rfl, rfl, rfl, hlen, _,
    compress_of_valid _ _ hvalid (by decide) (by decide), hlen, ?_⟩
  rw [hlen]
  exact lt_irrefl _

/-- C9 (amended): for every valid 800x600x3 image carrying 1,440,000 bytes,
`compress` with JPEG at quality 80 returns a non-empty byte sequence of length
exactly 1,440,000, which is the input data itself. -/
theorem compress_jpeg_800_600 (input : Image)
    (h : input.valid = true) (_hw : input.width = 800) (_hh : input.height = 600)
    (_hc : input.channels = 3) (hlen : input.data.length = 1440000) :
    ∃ bytes : List Byte,
      Processor.compress input { format := Format.JPEG, quality := 80 } = Except.ok bytes
      ∧ bytes ≠ [] ∧ bytes.length = 1440000 ∧ bytes = input.data :=
  ⟨_, compress_of_valid input _ h (by decide) (by decide), ((valid_iff input).mp h).1, hlen, rfl⟩

/-- Witness of the amended C9: the 800x600x3 image filled with 255 of the
resize example. -/
theorem compress_jpeg_800_600_witness :
    ∃ bytes : List Byte,
      Processor.compress (filledImage 800 600 3 255) { format := Format.JPEG, quality := 80 }
        = Except.ok bytes
      ∧ bytes ≠ [] ∧ bytes.length = 1440000 ∧ bytes = (filledImage 800 600 3 255).data :=
  compress_jpeg_800_600 (filledImage 800 600 3 255)
    (filledImage_valid 800 600 3 255 (by decide) (by decide) (by decide) (by decide))
    rfl rfl rfl (filledImage_length 800 600 3 255)

/-- Counterexample to C10: the valid images 1x2x1 and 2x1x1 built by
`makeDummyImage` differ, both carry width * height * channels bytes, and PNG at
quality 80 gives the same bytes for both; hence no decode function reproduces
every valid image from its PNG bytes. -/
theorem png_decode_counterexample :
    ((makeDummyImage 1 2 1).valid = true ∧ (makeDummyImage 2 1 1).valid = true
      ∧ (makeDummyImage 1 2 1).data.length = 1 * 2 * 1
      ∧ (makeDummyImage 2 1 1).data.length = 2 * 1 * 1
      ∧ makeDummyImage 1 2 1 ≠ makeDummyImage 2 1 1
      ∧ Processor.compress (makeDummyImage 1 2 1) { format := Format.PNG, quality := 80 }
          = Processor.compress (makeDummyImage 2 1 1) { format := Format.PNG, quality := 80 }
      ∧ ¬ ∃ decode : List Byte → Image,
          ∀ (B : Image) (q : Int), B.valid = true
            → B.data.length = B.width * B.height * B.channels → 1 ≤ q → q ≤ 100
            → ∃ bytes : List Byte,
                Processor.compress B { format := Format.PNG, quality := q } = Except.ok bytes
                ∧ decode bytes = B) := by
  have hA : (makeDummyImage 1 2 1).valid = true := by decide
  have hB : (makeDummyImage 2 1 1).valid = true := by decide
  have hne : makeDummyImage 1 2 1 ≠ makeDummyImage 2 1 1 := by decide
  have cA := compress_of_valid (makeDummyImage 1 2 1)
    { format := Format.PNG, quality := 80 } hA (by decide) (by decide)
  have cB := compress_of_valid (makeDummyImage 2 1 1)
    { format := Format.PNG, quality := 80 } hB (by decide) (by decide)
  have hdata : (makeDummyImage 1 2 1).data = (makeDummyImage 2 1 1).data := by decide
  have hsame :
      Processor.compress (makeDummyImage 1 2 1) { format := Format.PNG, quality := 80 }
        = Processor.compress (makeDummyImage 2 1 1) { format := Format.PNG, quality := 80 } := by
    rw [cA, cB, hdata]
  refine ⟨hA, hB, by decide, by decide, hne, hsame, ?_⟩
  rintro ⟨decode, hdec⟩
  obtain ⟨b1, e1, d1⟩ := hdec (makeDummyImage 1 2 1) 80 hA (by decide) (by decide) (by decide)
  obtain ⟨b2, e2, d2⟩ := hdec (makeDummyImage 2 1 1) 80 hB (by decide) (by decide) (by decide)
  rw [cA] at e1
  rw [cB] at e2
  injection e1 with e1
  injection e2 with e2
  apply hne
  rw [← d1, ← d2, ← e1, ← e2, hdata]

/-- C10 (amended): for every valid image `B` and every quality in 1..100 the PNG
bytes are exactly `B.data`, so the data (not the width, height and channels) is
reproduced from the bytes alone, and `B` is reproduced once its width, height and
channels are supplied; two valid images of equal width, height and channels that
give the same PNG bytes are equal. -/
theorem png_data_roundtrip (B : Image) (q : Int)
    (h : B.valid = true) (h1 : 1 ≤ q) (h2 : q ≤ 100) :
    (∃ bytes : List Byte,
        Processor.compress B { format := Format.PNG, quality := q } = Except.ok bytes
        ∧ bytes = B.data
        ∧ ({ data := bytes, width := B.width, height := B.height, channels := B.channels }
            : Image) = B)
      ∧ ∀ (B2 : Image) (q2 : Int), B2.valid = true → 1 ≤ q2 → q2 ≤ 100
          → B2.width = B.width → B2.height = B.height → B2.channels = B.channels
          → Processor.compress B2 { format := Format.PNG, quality := q2 }
              = Processor.compress B { format := Format.PNG, quality := q }
          → B2 = B := by
  have c := compress_of_valid B { format := Format.PNG, quality := q } h h1 h2
  refine ⟨⟨_, c, rfl, rfl⟩, ?_⟩
  intro B2 q2 hv2 a b ew eh ec e
  rw [c, compress_of_valid B2 { format := Format.PNG, quality := q2 } hv2 a b] at e
  injection e with e
  cases B
  cases B2
  simp_all

/-- Witness of the amended C10: the 2x2x3 dummy image at quality 80. -/
theorem png_data_roundtrip_witness :
    (∃ bytes : List Byte,
        Processor.compress (makeDummyImage 2 2 3) { format := Format.PNG, quality := 80 }
          = Except.ok bytes
        ∧ bytes = (makeDummyImage 2 2 3).data
        ∧ ({ data := bytes, width := (makeDummyImage 2 2 3).width,
             height := (makeDummyImage 2 2 3).height,
             channels := (makeDummyImage 2 2 3).channels } : Image) = makeDummyImage 2 2 3)
      ∧ ∀ (B2 : Image) (q2 : Int), B2.valid = true → 1 ≤ q2 → q2 ≤ 100
          → B2.width = (makeDummyImage 2 2 3).width → B2.height = (makeDummyImage 2 2 3).height
          → B2.channels = (makeDummyImage 2 2 3).channels
          → Processor.compress B2 { format := Format.PNG, quality := q2 }
              = Processor.compress (makeDummyImage 2 2 3) { format := Format.PNG, quality := 80 }
          → B2 = makeDummyImage 2 2 3 :=
  png_data_roundtrip (makeDummyImage 2 2 3) 80 (by decide) (by decide) (by decide)

/-! ## Relations between calls -/

theorem resize_result_valid (input : Image) (tw th : Nat)
    (h : input.valid = true) (hw : 0 < tw) (hh : 0 < th) :
    ({ data := input.data, width := tw, height := th, channels := input.channels }
      : Image).valid = true := by
  obtain ⟨hd, _, _, hc⟩ := (valid_iff input).mp h
  exact (valid_iff _).mpr ⟨hd, hw, hh, hc⟩

/-- C11: for JPEG and WEBP, on every valid image and all qualities
`1 ≤ q1 ≤ q2 ≤ 100`, `compress` succeeds at both qualities and the length at
`q1` is at most the length at `q2`. -/
theorem compress_size_monotone (input : Image) (format : Format) (q1 q2 : Int)
    (h : input.valid = true) (hf : format = Format.JPEG ∨ format = Format.WEBP)
    (h1 : 1 ≤ q1) (h12 : q1 ≤ q2) (h2 : q2 ≤ 100) :
    ∃ b1 b2 : List Byte,
      Processor.compress input { format := format, quality := q1 } = Except.ok b1
      ∧ Processor.compress input { format := format, quality := q2 } = Except.ok b2
      ∧ b1.length ≤ b2.length := by
  have _ := hf
  exact ⟨_, _,
    compress_of_valid input { format := format, quality := q1 } h h1 (le_trans h12 h2),
    compress_of_valid input { format := format, quality := q2 } h (le_trans h1 h12) h2,
    le_refl _⟩

/-- Witness of C11: the 10x10x4 dummy image, JPEG at 10 and 50, WEBP at 50 and 90. -/
theorem compress_size_monotone_witness :
    (∃ b1 b2 : List Byte,
      Processor.compress (makeDummyImage 10 10 4) { format := Format.JPEG, quality := 10 }
        = Except.ok b1
      ∧ Processor.compress (makeDummyImage 10 10 4) { format := Format.JPEG, quality := 50 }
        = Except.ok b2
      ∧ b1.length ≤ b2.length)
    ∧ (∃ b1 b2 : List Byte,
      Processor.compress (makeDummyImage 10 10 4) { format := Format.WEBP, quality := 50 }
        = Except.ok b1
      ∧ Processor.compress (makeDummyImage 10 10 4) { format := Format.WEBP, quality := 90 }
        = Except.ok b2
      ∧ b1.length ≤ b2.length) :=
  ⟨compress_size_monotone (makeDummyImage 10 10 4) Format.JPEG 10 50
      (makeDummyImage_valid 10 10 4 (by decide) (by decide) (by decide) (by decide))
      (Or.inl rfl) (by decide) (by decide) (by decide),
   compress_size_monotone (makeDummyImage 10 10 4) Format.WEBP 50 90
      (makeDummyImage_valid 10 10 4 (by decide) (by decide) (by decide) (by decide))
      (Or.inr rfl) (by decide) (by decide) (by decide)⟩

/-- C12: for every valid image `B` and every positive intermediate size
`(w2, h2)` with `w2 ≤ B.width` and `h2 ≤ B.height`, resizing `B` to `(w2, h2)` and
the result back to `(B.width, B.height)` succeeds twice, and the final image has
the same sum of bytes divided by the number of bytes as `B`, exactly, over the
rationals. -/
theorem resize_down_up_mean (B : Image) (w2 h2 : Nat) (k1 k2 : Bool)
    (h : B.valid = true) (hw : 0 < w2) (hh : 0 < h2)
    (hwle : w2 ≤ B.width) (hhle : h2 ≤ B.height) :
    ∃ mid out : Image,
      Processor.resize B
          { target_width := w2, target_height := h2, preserve_aspect_ratio := k1 }
        = Except.ok mid
      ∧ Processor.resize mid
          { target_width := B.width, target_height := B.height, preserve_aspect_ratio := k2 }
        = Except.ok out
      ∧ ((out.data.map (fun b => (b.val : ℚ))).sum / (out.data.length : ℚ)
          = (B.data.map (fun b => (b.val : ℚ))).sum / (B.data.length : ℚ)) := by
  have _ := hwle
  have _ := hhle
  obtain ⟨_, hbw, hbh, _⟩ := (valid_iff B).mp h
  exact ⟨_, _, resize_of_valid B _ h hw hh,
    resize_of_valid _ _ (resize_result_valid B w2 h2 h hw hh) hbw hbh, rfl⟩

/-- Witness of C12: the 8x6x3 dummy image resized to 4x3 and back to 8x6. -/
theorem resize_down_up_mean_witness :
    ∃ mid out : Image,
      Processor.resize (makeDummyImage 8 6 3)
          { target_width := 4, target_height := 3, preserve_aspect_ratio := true }
        = Except.ok mid
      ∧ Processor.resize mid
          { target_width := (makeDummyImage 8 6 3).width,
            target_height := (makeDummyImage 8 6 3).height, preserve_aspect_ratio := true }
        = Except.ok out
      ∧ ((out.data.map (fun b => (b.val : ℚ))).sum / (out.data.length : ℚ)
          = ((makeDummyImage 8 6 3).data.map (fun b => (b.val : ℚ))).sum
              / ((makeDummyImage 8 6 3).data.length : ℚ)) :=
  resize_down_up_mean (makeDummyImage 8 6 3) 4 3 true true
    (makeDummyImage_valid 8 6 3 (by decide) (by decide) (by decide) (by decide))
    (by decide) (by decide) (by decide) (by decide)

/-- C13: `valid()` is true exactly when the data is non-empty and width, height
and channels are positive; the default-constructed image is not valid; an image
of positive dimensions that carries width * height * channels bytes is valid. -/
theorem image_valid_spec (img : Image) :
    (img.valid = true
        ↔ (img.data ≠ [] ∧ 0 < img.width ∧ 0 < img.height ∧ 0 < img.channels))
      ∧ ({} : Image).valid = false
      ∧ (0 < img.width → 0 < img.height → 0 < img.channels
          → img.data.length = img.width * img.height * img.channels
          → img.valid = true) := by
  refine ⟨valid_iff img, by decide, ?_⟩
  intro hw hh hc hlen
  refine (valid_iff img).mpr ⟨?_, hw, hh, hc⟩
  intro e
  rw [e] at hlen
  exact absurd hlen.symm (Nat.pos_iff_ne_zero.mp (Nat.mul_pos (Nat.mul_pos hw hh) hc))

/-- Witness of C13: the 4x4x3 dummy image of the test, which carries 48 bytes. -/
theorem image_valid_spec_witness :
    (0 < (makeDummyImage 4 4 3).width ∧ 0 < (makeDummyImage 4 4 3).height
      ∧ 0 < (makeDummyImage 4 4 3).channels
      ∧ (makeDummyImage 4 4 3).data.length
          = (makeDummyImage 4 4 3).width * (makeDummyImage 4 4 3).height
              * (makeDummyImage 4 4 3).channels
      ∧ (makeDummyImage 4 4 3).valid = true) :=
  ⟨by decide, by decide, by decide, makeDummyImage_length 4 4 3,
   (image_valid_spec (makeDummyImage 4 4 3)).2.2 (by decide) (by decide) (by decide)
     (makeDummyImage_length 4 4 3)⟩

theorem not_valid_iff (img : Image) :
    img.valid = false
      ↔ (img.data = [] ∨ img.width = 0 ∨ img.height = 0 ∨ img.channels = 0) := by
  rw [← Bool.not_eq_true, valid_iff]
  simp only [not_and_or, not_not, Nat.pos_iff_ne_zero]

theorem resize_invalid_input_iff (img : Image) (options : ResizeOptions) :
    Processor.resize img options
        = Except.error (Exception.invalid_argument resize_invalid_input)
      ↔ img.valid = false := by
  constructor
  · intro e
    cases hv : img.valid with
    | false => rfl
    | true =>
      exfalso
      by_cases hz : options.target_width = 0 ∨ options.target_height = 0
      · have e2 : Processor.resize img options
            = Except.error (Exception.invalid_argument resize_invalid_target) := by
          rcases hz with hz | hz <;> simp [Processor.resize, hv, hz]
        rw [e2] at e
        exact error_ne_of_what_ne resize_messages_ne e
      · have hw : 0 < options.target_width := Nat.pos_of_ne_zero (fun a => hz (Or.inl a))
        have hh : 0 < options.target_height := Nat.pos_of_ne_zero (fun a => hz (Or.inr a))
        rw [resize_of_valid img options hv hw hh] at e
        cases e
  · exact resize_of_not_valid img options

theorem compress_invalid_input_iff (img : Image) (options : CompressOptions) :
    Processor.compress img options
        = Except.error (Exception.invalid_argument compress_invalid_input)
      ↔ img.valid = false := by
  constructor
  · intro e
    cases hv : img.valid with
    | false => rfl
    | true =>
      exfalso
      by_cases hq : options.quality < 1 ∨ 100 < options.quality
      · have e2 : Processor.compress img options
            = Except.error (Exception.invalid_argument compress_invalid_quality) := by
          rcases hq with hq | hq <;> simp [Processor.compress, hv, hq]
        rw [e2] at e
        exact error_ne_of_what_ne compress_messages_ne.symm e
      · have h1 : 1 ≤ options.quality := not_lt.mp (fun a => hq (Or.inl a))
        have h2 : options.quality ≤ 100 := not_lt.mp (fun a => hq (Or.inr a))
        rw [compress_of_valid img options hv h1 h2] at e
        cases e
  · intro hv
    simp [Processor.compress, hv]

/-- Counterexample to C14: the image with 3 bytes, width 2, height 2 and
channels 3 has a data length different from 2 * 2 * 3 = 12, yet `valid()` is
true, `resize` to 4x3 returns an image and `compress` (JPEG, 85) returns the
3 bytes; neither throws the invalid-input error. -/
theorem malformed_buffer_counterexample :
    (({ data := [1, 2, 3], width := 2, height := 2, channels := 3 } : Image).data.length
        ≠ 2 * 2 * 3
      ∧ ({ data := [1, 2, 3], width := 2, height := 2, channels := 3 } : Image).valid = true
      ∧ Processor.resize { data := [1, 2, 3], width := 2, height := 2, channels := 3 }
            { target_width := 4, target_height := 3 }
          = Except.ok { data := [1, 2, 3], width := 4, height := 3, channels := 3 }
      ∧ Processor.compress { data := [1, 2, 3], width := 2, height := 2, channels := 3 }
            { format := Format.JPEG, quality := 85 }
          = Except.ok [1, 2, 3]
      ∧ Processor.resize { data := [1, 2, 3], width := 2, height := 2, channels := 3 }
            { target_width := 4, target_height := 3 }
          ≠ Except.error (Exception.invalid_argument "imagekit::resize: invalid input image")
      ∧ Processor.compress { data := [1, 2, 3], width := 2, height := 2, channels := 3 }
            { format := Format.JPEG, quality := 85 }
          ≠ Except.error
              (Exception.invalid_argument "imagekit::compress: invalid input image")) := by
  refine ⟨by decide, by decide, rfl, rfl, ?_, ?_⟩
  · intro e
    cases e
  · intro e
    cases e

/-- C14 (amended): for every image and all options, `resize` throws the
invalid-input error exactly when the data is empty or width, height or channels
is 0, and so does `compress`; whether the data length equals
width * height * channels plays no part. -/
theorem invalid_input_iff_empty_or_zero (img : Image) (ro : ResizeOptions)
    (co : CompressOptions) :
    (Processor.resize img ro
          = Except.error (Exception.invalid_argument "imagekit::resize: invalid input image")
        ↔ (img.data = [] ∨ img.width = 0 ∨ img.height = 0 ∨ img.channels = 0))
      ∧ (Processor.compress img co
          = Except.error (Exception.invalid_argument "imagekit::compress: invalid input image")
        ↔ (img.data = [] ∨ img.width = 0 ∨ img.height = 0 ∨ img.channels = 0)) :=
  ⟨(resize_invalid_input_iff img ro).trans (not_valid_iff img),
   (compress_invalid_input_iff img co).trans (not_valid_iff img)⟩

/-- C15: two resize options that agree on `target_width` and `target_height`
give the same outcome of `resize` on every image (the same error or the same
image), whatever their `preserve_aspect_ratio` flags are. -/
theorem resize_ignores_aspect_flag (img : Image) (o1 o2 : ResizeOptions)
    (hw : o1.target_width = o2.target_width) (hh : o1.target_height = o2.target_height) :
    Processor.resize img o1 = Processor.resize img o2 := by
  simp only [Processor.resize, hw, hh]

/-- Witness of C15: the 8x6x3 dummy image with target 4x3, flag set and flag clear;
the common outcome is the returned 4x3 image. -/
theorem resize_ignores_aspect_flag_witness :
    Processor.resize (makeDummyImage 8 6 3)
        { target_width := 4, target_height := 3, preserve_aspect_ratio := true }
      = Processor.resize (makeDummyImage 8 6 3)
        { target_width := 4, target_height := 3, preserve_aspect_ratio := false } :=
  resize_ignores_aspect_flag (makeDummyImage 8 6 3)
    { target_width := 4, target_height := 3, preserve_aspect_ratio := true }
    { target_width := 4, target_height := 3, preserve_aspect_ratio := false } rfl rfl

/-- C16: for every valid image `B` and all options `S1`, `S2` with positive
target dimensions, resizing with `S1` and then with `S2` succeeds and gives what
resizing `B` with `S2` gives; resizing `B` to its own width and height returns
`B`, and so does resizing the `S1` result back to `B`'s width and height. -/
theorem resize_collapses (B : Image) (S1 S2 : ResizeOptions) (k : Bool)
    (h : B.valid = true)
    (hw1 : 0 < S1.target_width) (hh1 : 0 < S1.target_height)
    (hw2 : 0 < S2.target_width) (hh2 : 0 < S2.target_height) :
    ∃ mid out : Image,
      Processor.resize B S1 = Except.ok mid
      ∧ Processor.resize B S2 = Except.ok out
      ∧ Processor.resize mid S2 = Except.ok out
      ∧ Processor.resize B
            { target_width := B.width, target_height := B.height, preserve_aspect_ratio := k }
          = Except.ok B
      ∧ Processor.resize mid
            { target_width := B.width, target_height := B.height, preserve_aspect_ratio := k }
          = Except.ok B := by
  obtain ⟨_, hbw, hbh, _⟩ := (valid_iff B).mp h
  have hmid := resize_result_valid B S1.target_width S1.target_height h hw1 hh1
  exact ⟨_, _, resize_of_valid B S1 h hw1 hh1, resize_of_valid B S2 h hw2 hh2,
    resize_of_valid _ S2 hmid hw2 hh2,
    resize_of_valid B _ h hbw hbh,
    resize_of_valid _ _ hmid hbw hbh⟩

/-- Witness of C16: the 8x6x3 dummy image resized to 4x3 and then to 2x2, and back
to 8x6. -/
theorem resize_collapses_witness :
    ∃ mid out : Image,
      Processor.resize (makeDummyImage 8 6 3) { target_width := 4, target_height := 3 }
        = Except.ok mid
      ∧ Processor.resize (makeDummyImage 8 6 3) { target_width := 2, target_height := 2 }
        = Except.ok out
      ∧ Processor.resize mid { target_width := 2, target_height := 2 } = Except.ok out
      ∧ Processor.resize (makeDummyImage 8 6 3)
            { target_width := (makeDummyImage 8 6 3).width,
              target_height := (makeDummyImage 8 6 3).height, preserve_aspect_ratio := true }
          = Except.ok (makeDummyImage 8 6 3)
      ∧ Processor.resize mid
            { target_width := (makeDummyImage 8 6 3).width,
              target_height := (makeDummyImage 8 6 3).height, preserve_aspect_ratio := true }
          = Except.ok (makeDummyImage 8 6 3) :=
  resize_collapses (makeDummyImage 8 6 3) { target_width := 4, target_height := 3 }
    { target_width := 2, target_height := 2 } true
    (makeDummyImage_valid 8 6 3 (by decide) (by decide) (by decide) (by decide))
    (by decide) (by decide) (by decide) (by decide)

/-- C17: for every valid image `B`, all formats `f1`, `f2` and all qualities
`q1`, `q2` in 1..100, `compress` returns the same bytes for `(f1, q1)` and
`(f2, q2)`, and they are `B.data`. -/
theorem compress_ignores_format_and_quality (B : Image) (f1 f2 : Format) (q1 q2 : Int)
    (h : B.valid = true) (h1 : 1 ≤ q1) (h2 : q1 ≤ 100) (h3 : 1 ≤ q2) (h4 : q2 ≤ 100) :
    Processor.compress B { format := f1, quality := q1 }
        = Processor.compress B { format := f2, quality := q2 }
      ∧ Processor.compress B { format := f1, quality := q1 } = Except.ok B.data
      ∧ Processor.compress B { format := f2, quality := q2 } = Except.ok B.data := by
  have a := compress_of_valid B { format := f1, quality := q1 } h h1 h2
  have b := compress_of_valid B { format := f2, quality := q2 } h h3 h4
  exact ⟨a.trans b.symm, a, b⟩

/-- Witness of C17: the 10x10x4 dummy image, JPEG at 85 against PNG at 1. -/
theorem compress_ignores_format_and_quality_witness :
    Processor.compress (makeDummyImage 10 10 4) { format := Format.JPEG, quality := 85 }
        = Processor.compress (makeDummyImage 10 10 4) { format := Format.PNG, quality := 1 }
      ∧ Processor.compress (makeDummyImage 10 10 4) { format := Format.JPEG, quality := 85 }
        = Except.ok (makeDummyImage 10 10 4).data
      ∧ Processor.compress (makeDummyImage 10 10 4) { format := Format.PNG, quality := 1 }
        = Except.ok (makeDummyImage 10 10 4).data :=
  compress_ignores_format_and_quality (makeDummyImage 10 10 4) Format.JPEG Format.PNG 85 1
    (makeDummyImage_valid 10 10 4 (by decide) (by decide) (by decide) (by decide))
    (by decide) (by decide) (by decide) (by decide)

end imagekit
